import Mathlib

/-!
Verification of the NAT-traversal / hole-punching repository.

The Python sources are embedded shallowly:
* byte strings become `List Nat` (each entry one byte value),
* `struct.pack`/`struct.unpack` with `!H` / `!I` become `pack16` / `pack32`
  and `get2` / `get4`,
* the attribute-scanning loop of `parse_stun_response` becomes the
  fuel-indexed `scanGo` (the fuel does not change the computed value once it
  is at least the buffer length, which is proved below),
* the interactive loops (`punch`, `listen`, the relay loops,
  `handle_tcp_connection`) become functions over the finite list of events
  or input lines they consume, and
* `get_mapped_address` becomes a function of an environment recording the
  outcome of each socket operation; the Python `try`/`except` that swallows
  every exception is reflected by the Lean function being total.
-/

namespace Plink

/-- Big-endian 16-bit encoding, the model of `struct.pack` with format `!H`. -/
def pack16 (n : Nat) : List Nat := [n / 256 % 256, n % 256]

/-- Big-endian 32-bit encoding, the model of `struct.pack` with format `!I`. -/
def pack32 (n : Nat) : List Nat :=
  [n / 2 ^ 24 % 256, n / 2 ^ 16 % 256, n / 2 ^ 8 % 256, n % 256]

/-- Big-endian 16-bit read at index `i`, the model of
`struct.unpack` with format `!H` applied to `resp[i:i+2]`.  Out-of-range
indices read 0; every use in the embedded code is guarded so that the
indices are in range, exactly as the Python slices are. -/
def get2 (resp : List Nat) (i : Nat) : Nat :=
  resp.getD i 0 * 256 + resp.getD (i + 1) 0

/-- Big-endian 32-bit read at index `i`, the model of `struct.unpack`
with format `!I` applied to `resp[i:i+4]`. -/
def get4 (resp : List Nat) (i : Nat) : Nat :=
  get2 resp i * 65536 + get2 resp (i + 2)

/-- Model of the Python slice `resp[i:i+4]`. -/
def slice4 (resp : List Nat) (i : Nat) : List Nat :=
  (resp.drop i).take 4

/-- Model of `'.'.join(str(b) for b in ip_bytes)` in `parse_stun_response`. -/
def ipDots (bs : List Nat) : String :=
  String.intercalate "." (bs.map (fun b => toString b))

/-- Embedding of `NATDetector.create_stun_request` (src/test.py lines 17-25):
`struct.pack` of message type `0x0001`, message length `0x0000`, the magic
cookie `0x2112A442`, followed by the 12 random transaction-id bytes, which
are taken here as an argument. -/
def create_stun_request (tid : List Nat) : List Nat :=
  pack16 0x0001 ++ pack16 0x0000 ++ pack32 0x2112A442 ++ tid

/-- Embedding of the attribute-scanning `while` loop of
`NATDetector.parse_stun_response` (src/test.py lines 32-49).  The first
argument is the fuel bounding the number of iterations; `none` means the
fuel ran out, `some r` means the loop finished with result `r`.  One
iteration: exit when `offset` reaches the buffer length or fewer than 4
bytes remain; read the 2-byte attribute type at `offset` and the 2-byte
attribute length at `offset+2`; when the type is `0x0001`, the length is at
least 8, `offset+12` fits in the buffer and the 16-bit value read at
`offset+5` equals `0x01` (this is what the Python code compares — the
2-byte read starts at the family byte, so it is the family byte paired with
the high port byte), return the dotted ip from `resp[offset+8:offset+12]`
and the port from `resp[offset+6:offset+8]`; otherwise advance `offset` by
`4 + attr_length`. -/
def scanGo (resp : List Nat) : Nat → Nat → Option (Option (String × Nat))
  | 0, offset => if resp.length ≤ offset then some none else none
  | fuel + 1, offset =>
    if resp.length ≤ offset then some none
    else if resp.length < offset + 4 then some none
    else
      let attr_length := get2 resp (offset + 2)
      if get2 resp offset = 1 ∧ 8 ≤ attr_length ∧ offset + 12 ≤ resp.length ∧
          get2 resp (offset + 5) = 1 then
        some (some (ipDots (slice4 resp (offset + 8)), get2 resp (offset + 6)))
      else
        scanGo resp fuel (offset + 4 + attr_length)

/-- Embedding of `NATDetector.parse_stun_response` (src/test.py lines
27-51): `(None, None)` on a buffer shorter than 20 bytes, otherwise the
result of scanning the attributes from offset 20.  The Python pair
`(None, None)` and a successful `(ip, port)` are modelled by
`Option (String × Nat)`.  The fuel `resp.length` is always sufficient
(`scanGo_total` below), so the `none` fallback of the `match` is never
exercised. -/
def parse_stun_response (resp : List Nat) : Option (String × Nat) :=
  if resp.length < 20 then none
  else
    match scanGo resp resp.length 20 with
    | some r => r
    | none => none

lemma scanGo_isSome_of_le (resp : List Nat) :
    ∀ fuel offset, resp.length ≤ offset + fuel → (scanGo resp fuel offset).isSome := by
  intro fuel
  induction fuel with
  | zero =>
    intro offset h
    have hle : resp.length ≤ offset := by omega
    simp only [scanGo]
    simp [hle]
  | succ n ih =>
    intro offset h
    simp only [scanGo]
    split
    · simp
    · split
      · simp
      · split
        · simp
        · exact ih (offset + 4 + get2 resp (offset + 2)) (by omega)

lemma scanGo_fuel_succ (resp : List Nat) :
    ∀ fuel offset, resp.length ≤ offset + fuel →
      scanGo resp (fuel + 1) offset = scanGo resp fuel offset := by
  intro fuel
  induction fuel with
  | zero =>
    intro offset h
    simp only [scanGo]
    split
    · rfl
    · omega
  | succ n ih =>
    intro offset h
    conv_lhs => simp only [scanGo]
    conv_rhs => simp only [scanGo]
    split
    · rfl
    · split
      · rfl
      · split
        · rfl
        · exact ih (offset + 4 + get2 resp (offset + 2)) (by omega)

lemma scanGo_fuel_ge (resp : List Nat) (offset : Nat)
    (hoff : resp.length ≤ offset + resp.length) :
    ∀ k, scanGo resp (resp.length + k) offset = scanGo resp resp.length offset := by
  intro k
  induction k with
  | zero => rfl
  | succ n ih =>
    have h : resp.length ≤ offset + (resp.length + n) := by omega
    calc scanGo resp (resp.length + (n + 1)) offset
        = scanGo resp (resp.length + n) offset := scanGo_fuel_succ resp _ offset h
      _ = scanGo resp resp.length offset := ih

/-- Well-formed STUN response in the sense of claim C1: the 20-byte header
(type `0x0001`, length `0x000C`, magic cookie, 12 zero transaction-id
bytes) followed by one MAPPED-ADDRESS attribute of type `0x0001` with
value length 8: one reserved byte `0x00`, family byte `0x01`, the port
40000 in network byte order, and the IPv4 address 203.0.113.5. -/
def mappedAddressResponse : List Nat :=
  pack16 0x0001 ++ pack16 0x000C ++ pack32 0x2112A442 ++ List.replicate 12 0 ++
    pack16 0x0001 ++ pack16 8 ++ [0x00, 0x01] ++ pack16 40000 ++ [203, 0, 113, 5]

/-- C1: refuted on the code.  On the well-formed STUN response carrying the
mapped address (203.0.113.5, 40000), `parse_stun_response` returns absent
instead of the encoded pair: the code reads the 16-bit "family" starting at
the family byte itself (`response[offset+5:offset+7]`), so with family byte
`0x01` it computes `0x01 * 256 + portHigh`, which never equals `0x01`, and
the MAPPED-ADDRESS attribute is skipped. -/
theorem parse_stun_response_wellformed_absent :
    mappedAddressResponse.length = 32 ∧
      parse_stun_response mappedAddressResponse = none := by
  constructor
  · rfl
  · rfl

/-- C7: on every buffer shorter than 20 bytes, `parse_stun_response`
returns absent.  The embedded function is total, reflecting that the Python
code only compares the length and returns `(None, None)` without touching
the buffer contents. -/
theorem parse_stun_response_short (resp : List Nat) (h : resp.length < 20) :
    parse_stun_response resp = none := by
  simp [parse_stun_response, h]

theorem parse_stun_response_short_witness :
    parse_stun_response [0, 1, 2] = none :=
  parse_stun_response_short [0, 1, 2] (by decide)

/-- C8: for every 12-byte transaction id, `create_stun_request` returns
exactly 20 bytes whose first two bytes decode (big-endian) to the message
type `0x0001`, next two to the message length `0x0000`, next four to the
magic cookie `0x2112A442`, followed by the transaction id itself. -/
theorem create_stun_request_header (tid : List Nat) (h : tid.length = 12) :
    (create_stun_request tid).length = 20 ∧
      get2 (create_stun_request tid) 0 = 0x0001 ∧
      get2 (create_stun_request tid) 2 = 0x0000 ∧
      get4 (create_stun_request tid) 4 = 0x2112A442 ∧
      (create_stun_request tid).drop 8 = tid := by
  have hform : create_stun_request tid =
      0 :: 1 :: 0 :: 0 :: 33 :: 18 :: 164 :: 66 :: tid := by
    simp [create_stun_request, pack16, pack32]
  rw [hform]
  refine ⟨by simp [h], ?_, ?_, ?_, by simp⟩
  · simp [get2, List.getD]
  · simp [get2, List.getD]
  · norm_num [get4, get2, List.getD]

theorem create_stun_request_header_witness :
    (create_stun_request (List.replicate 12 7)).length = 20 ∧
      get2 (create_stun_request (List.replicate 12 7)) 0 = 0x0001 ∧
      get2 (create_stun_request (List.replicate 12 7)) 2 = 0x0000 ∧
      get4 (create_stun_request (List.replicate 12 7)) 4 = 0x2112A442 ∧
      (create_stun_request (List.replicate 12 7)).drop 8 = List.replicate 12 7 :=
  create_stun_request_header (List.replicate 12 7) (by decide)

/-- C9: the attribute-scanning loop of `parse_stun_response` terminates and
returns a value on every input: fuel equal to the buffer length is always
sufficient (each iteration advances the offset by at least 4 and the loop
exits once the offset reaches the buffer length), and giving the loop any
larger fuel does not change the result. -/
theorem scanGo_terminates (resp : List Nat) :
    (scanGo resp resp.length 20).isSome = true ∧
      ∀ fuel, resp.length ≤ fuel →
        scanGo resp fuel 20 = scanGo resp resp.length 20 := by
  constructor
  · exact scanGo_isSome_of_le resp resp.length 20 (by omega)
  · intro fuel hfuel
    have hk : fuel = resp.length + (fuel - resp.length) := by omega
    rw [hk]
    exact scanGo_fuel_ge resp 20 (by omega) (fuel - resp.length)

theorem scanGo_terminates_witness :
    (scanGo [253, 0] (List.length [253, 0]) 20).isSome = true ∧
      scanGo [253, 0] 5 20 = scanGo [253, 0] (List.length [253, 0]) 20 :=
  ⟨(scanGo_terminates [253, 0]).1, (scanGo_terminates [253, 0]).2 5 (by decide)⟩

/-- One successful probe, the tuple `(ip, port, local_port)` appended to
`results` in `NATDetector.detect_nat_type` (src/test.py line 84). -/
structure ProbeRes where
  ip : String
  mappedPort : Nat
  localPort : Nat

/-- Embedding of the `port_diffs` loop of `detect_nat_type` (src/test.py
lines 101-105): for each consecutive pair, the difference of mapped-port
deltas and local-port deltas, over the integers (Python ints). -/
def port_diffs : List (Int × Int) → List Int
  | (e1, l1) :: (e2, l2) :: rest => (e2 - e1 - (l2 - l1)) :: port_diffs ((e2, l2) :: rest)
  | _ => []

/-- Consecutive deltas of a list of probe results. -/
def natDiffs (results : List ProbeRes) : List Int :=
  port_diffs (results.map (fun r => ((r.mappedPort : Int), (r.localPort : Int))))

/-- Embedding of the classification part of `NATDetector.detect_nat_type`
(src/test.py lines 89-115), as a function of the `results` list collected
by the probing loop.  Python `len(set(xs))` becomes `xs.dedup.length`. -/
def detect_nat_type (results : List ProbeRes) : String :=
  if results.length < 2 then "UNKNOWN - Not enough STUN responses"
  else if 1 < ((results.map (fun r => r.ip)).dedup).length then
    "SYMMETRIC NAT - Different external IPs (Very hard to punch)"
  else if ∀ d ∈ natDiffs results, d = 0 then "FULL CONE NAT - Easy to punch"
  else if ((results.map (fun r => r.mappedPort)).dedup).length =
      (results.map (fun r => r.mappedPort)).length then
    if ∀ d ∈ natDiffs results, 0 < d then "PORT RESTRICTED NAT - Moderate difficulty"
    else "SYMMETRIC NAT - Different ports (Hard to punch)"
  else "ADDRESS RESTRICTED NAT - Moderate difficulty"

lemma dedup_length_le_one_of_all_eq {α : Type} [DecidableEq α] {l : List α} {c : α}
    (h : ∀ x ∈ l, x = c) : l.dedup.length ≤ 1 := by
  induction l with
  | nil => simp
  | cons a l ih =>
    by_cases ha : a ∈ l
    · rw [List.dedup_cons_of_mem ha]
      exact ih (fun x hx => h x (List.mem_cons_of_mem a hx))
    · rw [List.dedup_cons_of_not_mem ha]
      have hl : l = [] := by
        cases l with
        | nil => rfl
        | cons b l =>
          have hab : a = b :=
            (h a (List.mem_cons_self a _)).trans
              (h b (List.mem_cons_of_mem a (List.mem_cons_self b _))).symm
          exact absurd (by rw [hab]; exact List.mem_cons_self b l) ha
      subst hl
      simp

lemma one_lt_dedup_length_of_ne {α : Type} [DecidableEq α] {l : List α} {x y : α}
    (hx : x ∈ l) (hy : y ∈ l) (hne : x ≠ y) : 1 < l.dedup.length := by
  by_contra h
  have hle : l.dedup.length ≤ 1 := by omega
  have hx1 : x ∈ l.dedup := List.mem_dedup.mpr hx
  have hy1 : y ∈ l.dedup := List.mem_dedup.mpr hy
  match hd : l.dedup with
  | [] => rw [hd] at hx1; exact absurd hx1 (List.not_mem_nil x)
  | [a] =>
    rw [hd] at hx1 hy1
    exact hne ((List.mem_singleton.mp hx1).trans (List.mem_singleton.mp hy1).symm)
  | a :: b :: rest => rw [hd] at hle; simp at hle

lemma dedup_length_eq_iff_nodup {α : Type} [DecidableEq α] {l : List α} :
    l.dedup.length = l.length ↔ l.Nodup := by
  constructor
  · intro h
    rw [← List.dedup_eq_self]
    exact (List.dedup_sublist l).eq_of_length h
  · intro h
    rw [List.dedup_eq_self.mpr h]

/-- C2: when at least two probe results all share the same mapped ip, the
classification is FULL CONE exactly when every consecutive delta is 0;
otherwise, with pairwise-distinct mapped ports it is PORT RESTRICTED when
every delta is strictly positive and SYMMETRIC (different ports) when not;
and with a repeated mapped port it is ADDRESS RESTRICTED. -/
theorem detect_nat_type_same_ip (c : String) (results : List ProbeRes)
    (h2 : 2 ≤ results.length) (hip : ∀ r ∈ results, r.ip = c) :
    ((∀ d ∈ natDiffs results, d = 0) →
        detect_nat_type results = "FULL CONE NAT - Easy to punch") ∧
      (¬ (∀ d ∈ natDiffs results, d = 0) →
        ((results.map (fun r => r.mappedPort)).Nodup →
          ((∀ d ∈ natDiffs results, 0 < d) →
            detect_nat_type results = "PORT RESTRICTED NAT - Moderate difficulty") ∧
          (¬ (∀ d ∈ natDiffs results, 0 < d) →
            detect_nat_type results = "SYMMETRIC NAT - Different ports (Hard to punch)")) ∧
        (¬ (results.map (fun r => r.mappedPort)).Nodup →
          detect_nat_type results = "ADDRESS RESTRICTED NAT - Moderate difficulty")) := by
  have hnot2 : ¬ results.length < 2 := by omega
  have hipall : ∀ x ∈ results.map (fun r => r.ip), x = c := by
    intro x hx
    obtain ⟨r, hr, hrx⟩ := List.mem_map.mp hx
    exact hrx ▸ hip r hr
  have hips : ¬ 1 < ((results.map (fun r => r.ip)).dedup).length := by
    have := dedup_length_le_one_of_all_eq hipall
    omega
  simp only [detect_nat_type]
  rw [if_neg hnot2, if_neg hips]
  constructor
  · intro hz
    rw [if_pos hz]
  · intro hz
    rw [if_neg hz]
    constructor
    · intro hnodup
      rw [if_pos (dedup_length_eq_iff_nodup.mpr hnodup)]
      constructor
      · intro hpos; rw [if_pos hpos]
      · intro hpos; rw [if_neg hpos]
    · intro hnodup
      rw [if_neg (fun h => hnodup (dedup_length_eq_iff_nodup.mp h))]

theorem detect_nat_type_same_ip_witness :
    detect_nat_type
        [⟨"203.0.113.5", 40000, 9000⟩, ⟨"203.0.113.5", 40050, 9001⟩] =
      "PORT RESTRICTED NAT - Moderate difficulty" :=
  ((((detect_nat_type_same_ip "203.0.113.5"
        [⟨"203.0.113.5", 40000, 9000⟩, ⟨"203.0.113.5", 40050, 9001⟩]
        (by decide) (by decide)).2 (by decide)).1 (by decide)).1 (by decide))

/-- C3: with fewer than two successful probe results the classification is
UNKNOWN, and with at least two results whose mapped ips are not all equal
it is SYMMETRIC (different external ips) regardless of any port values. -/
theorem detect_nat_type_unknown_and_symmetric (results : List ProbeRes) :
    (results.length < 2 →
        detect_nat_type results = "UNKNOWN - Not enough STUN responses") ∧
      (2 ≤ results.length →
        ∀ r₁ ∈ results, ∀ r₂ ∈ results, r₁.ip ≠ r₂.ip →
          detect_nat_type results =
            "SYMMETRIC NAT - Different external IPs (Very hard to punch)") := by
  constructor
  · intro h
    simp only [detect_nat_type]
    rw [if_pos h]
  · intro h2 r₁ h₁ r₂ hm₂ hne
    have hnot2 : ¬ results.length < 2 := by omega
    have hips : 1 < ((results.map (fun r => r.ip)).dedup).length :=
      one_lt_dedup_length_of_ne (List.mem_map_of_mem (fun r => r.ip) h₁)
        (List.mem_map_of_mem (fun r => r.ip) hm₂) hne
    simp only [detect_nat_type]
    rw [if_neg hnot2, if_pos hips]

theorem detect_nat_type_unknown_and_symmetric_witness :
    detect_nat_type [⟨"198.51.100.7", 40000, 9000⟩] =
        "UNKNOWN - Not enough STUN responses" ∧
      detect_nat_type [⟨"198.51.100.7", 40000, 9000⟩, ⟨"203.0.113.9", 40000, 9001⟩] =
        "SYMMETRIC NAT - Different external IPs (Very hard to punch)" :=
  ⟨(detect_nat_type_unknown_and_symmetric _).1 (by decide),
    (detect_nat_type_unknown_and_symmetric _).2 (by decide)
      ⟨"198.51.100.7", 40000, 9000⟩ (List.mem_cons_self _ _)
      ⟨"203.0.113.9", 40000, 9001⟩ (List.mem_cons_of_mem _ (List.mem_cons_self _ _))
      (by decide)⟩

/-- Model of Python `str.lower()` (ASCII case folding on the character
list of the string). -/
def pyLower (s : String) : String := ⟨s.data.map Char.toLower⟩

/-- Model of Python `str.strip()`: drop whitespace characters from both
ends (with Lean's whitespace class: space, tab, carriage return, newline,
which covers every character these claims mention). -/
def stripList (s : List Char) : List Char :=
  ((s.dropWhile Char.isWhitespace).reverse.dropWhile Char.isWhitespace).reverse

/-- Model of Python `str.strip()` on strings. -/
def pyStrip (s : String) : String := ⟨stripList s.data⟩

/-- Outcome of one `sock.recvfrom` call in `listen`
(src/hole_punch.py): either a datagram with its decoded payload, or an
exception (timeout, closed socket, network error). -/
inductive UdpEvent where
  | datagram (payload : String)
  | failure

/-- Embedding of `listen` (src/hole_punch.py lines 6-16) as a function of
the sequence of receive outcomes it consumes.  The loop condition is
`while True`; the loop body prints every payload different from the
literal "HOLE_PUNCH" and exits only when a receive raises (`except` then
`break`).  The stop event of the session is not an argument of the Python
function (`listen(sock)` receives only the socket), so the cancellation
flag cannot influence this computation. -/
def listenRun : List UdpEvent → List String
  | [] => []
  | UdpEvent.failure :: _ => []
  | UdpEvent.datagram m :: rest =>
    if m = "HOLE_PUNCH" then listenRun rest else m :: listenRun rest

/-- Embedding of `punch` (src/hole_punch.py lines 18-28).  `stop i` is the
value of `stop_event.is_set()` observed at the start of iteration `i` (one
iteration per second, because of `time.sleep(1)`).  The result is
`some sends` when the loop exits within the given fuel, with `sends` the
iterations at which the marker datagram was sent; `none` means the fuel
ran out with the flag still unset. -/
def punchRun (stop : Nat → Bool) : Nat → Nat → Option (List Nat)
  | 0, i => if stop i then some [] else none
  | fuel + 1, i =>
    if stop i then some []
    else
      match punchRun stop fuel (i + 1) with
      | some l => some (i :: l)
      | none => none

lemma punchRun_of_stop (stop : Nat → Bool) :
    ∀ fuel i, stop (i + fuel) = true →
      ∃ l, punchRun stop fuel i = some l ∧ ∀ j ∈ l, stop j = false ∧ j < i + fuel := by
  intro fuel
  induction fuel with
  | zero =>
    intro i h
    refine ⟨[], ?_, by simp⟩
    simp only [punchRun]
    rw [if_pos (by simpa using h)]
  | succ n ih =>
    intro i h
    by_cases hi : stop i = true
    · exact ⟨[], by simp [punchRun, hi], by simp⟩
    · have hfalse : stop i = false := by
        cases hsi : stop i
        · rfl
        · exact absurd hsi hi
      obtain ⟨l, hl, hmem⟩ := ih (i + 1) (by
        rw [show i + 1 + n = i + (n + 1) by omega]
        exact h)
      refine ⟨i :: l, ?_, ?_⟩
      · simp only [punchRun]
        rw [if_neg hi, hl]
      · intro j hj
        rcases List.mem_cons.mp hj with hj | hj
        · exact ⟨hj ▸ hfalse, by omega⟩
        · exact ⟨(hmem j hj).1, by have := (hmem j hj).2; omega⟩

/-- C4 counterexample: a UDP listener run in which the cancellation flag
was set before the only datagram arrived still delivers the message.  The
Python `listen` never reads the stop event (it is not even passed to it),
so its output is the same whatever the flag's history; it does not stop
within a polling interval of the flag being set. -/
theorem listenRun_delivers_after_cancel :
    listenRun [UdpEvent.datagram "hello"] = ["hello"] := by decide

/-- C4 amended: after the flag is observed set (at iteration `n`), the
punch loop terminates and every marker send happened at an iteration where
the flag was still unset (hence strictly before `n`); the listener, which
does not read the flag, stops exactly when a receive fails (for example
when the session closes the shared socket). -/
theorem udp_cancellation (stop : Nat → Bool) (n : Nat) (hn : stop n = true) :
    (∃ sends, punchRun stop n 0 = some sends ∧
        ∀ j ∈ sends, stop j = false ∧ j < n) ∧
      ∀ events, listenRun (UdpEvent.failure :: events) = [] := by
  refine ⟨?_, fun events => rfl⟩
  have h := punchRun_of_stop stop n 0 (by simpa using hn)
  simpa using h

theorem udp_cancellation_witness :
    (∃ sends, punchRun (fun i => decide (0 < i)) 1 0 = some sends ∧
        ∀ j ∈ sends, (fun i => decide (0 < i)) j = false ∧ j < 1) ∧
      ∀ events, listenRun (UdpEvent.failure :: events) = [] :=
  udp_cancellation (fun i => decide (0 < i)) 1 (by decide)

/-- Environment of one `get_mapped_address` call: whether `bind` and
`sendto` succeed, and the outcome of `recvfrom` (`none` is a timeout or
socket error, `some resp` a received datagram). -/
structure UdpEnv where
  bind_ok : Bool
  send_ok : Bool
  recv_reply : Option (List Nat)

/-- Observable outcome of one `get_mapped_address` call: the returned
`(ip, port)` pair and whether `sock.close()` was executed.  The Python
`except Exception` arm returns `(None, None)` for every failure, so the
embedded function is total: no exception escapes. -/
structure UdpCall where
  result : Option (String × Nat)
  sock_closed : Bool

/-- Embedding of `NATDetector.get_mapped_address` (src/test.py lines
53-69).  The body runs bind, settimeout, sendto, recvfrom, parse, close,
return, in that order, inside `try`; on any exception the `except` arm
returns `(None, None)` directly — without reaching the `sock.close()`
line, which sits before the `return` on the success path only. -/
def get_mapped_address (env : UdpEnv) : UdpCall :=
  if env.bind_ok = false then { result := none, sock_closed := false }
  else if env.send_ok = false then { result := none, sock_closed := false }
  else
    match env.recv_reply with
    | none => { result := none, sock_closed := false }
    | some resp => { result := parse_stun_response resp, sock_closed := true }

/-- C5 counterexample: when `recvfrom` times out (bind and send having
succeeded), the call yields failure but the transient socket is NOT
closed: the exception jumps to the `except` arm, which returns before the
`sock.close()` line, and there is no `finally`/`with` to release it. -/
theorem get_mapped_address_timeout_leaks :
    (get_mapped_address { bind_ok := true, send_ok := true, recv_reply := none }).result
        = none ∧
      (get_mapped_address { bind_ok := true, send_ok := true, recv_reply := none }).sock_closed
        = false := by
  exact ⟨rfl, rfl⟩

/-- C5 amended: every socket error, timeout, or decode failure yields
failure and no exception escapes (the embedded call is total); the socket
is closed exactly on the paths where a reply is received — including the
decode-failure path, since `parse_stun_response` returns rather than
raises — while on bind, send, or receive errors the `except` arm returns
without closing it. -/
theorem get_mapped_address_outcomes (env : UdpEnv) :
    ((env.bind_ok = false ∨ env.send_ok = false ∨ env.recv_reply = none) →
        (get_mapped_address env).result = none ∧
          (get_mapped_address env).sock_closed = false) ∧
      (∀ resp, env.recv_reply = some resp → env.bind_ok = true → env.send_ok = true →
        (get_mapped_address env).result = parse_stun_response resp ∧
          (get_mapped_address env).sock_closed = true) := by
  constructor
  · rintro (h | h | h)
    · simp [get_mapped_address, h]
    · by_cases hb : env.bind_ok = false
      · simp [get_mapped_address, hb]
      · simp [get_mapped_address, hb, h]
    · by_cases hb : env.bind_ok = false
      · simp [get_mapped_address, hb]
      · by_cases hs : env.send_ok = false
        · simp [get_mapped_address, hb, hs]
        · simp [get_mapped_address, hb, hs, h]
  · intro resp hr hb hs
    simp [get_mapped_address, hb, hs, hr]

theorem get_mapped_address_outcomes_witness :
    ((get_mapped_address { bind_ok := true, send_ok := true, recv_reply := none }).result
          = none ∧
        (get_mapped_address { bind_ok := true, send_ok := true, recv_reply := none }).sock_closed
          = false) ∧
      ((get_mapped_address { bind_ok := true, send_ok := true, recv_reply := some [7] }).result
          = parse_stun_response [7] ∧
        (get_mapped_address { bind_ok := true, send_ok := true, recv_reply := some [7] }).sock_closed
          = true) :=
  ⟨(get_mapped_address_outcomes _).1 (Or.inr (Or.inr rfl)),
    (get_mapped_address_outcomes _).2 [7] rfl rfl rfl⟩

/-- Embedding of the message loop of `hole_punch.main` (src/hole_punch.py
lines 55-59) over the finite list of lines typed by the user: each line is
compared (lowercased) against the single literal `"quit"`; on a match the
loop breaks (and line 61 then closes the socket), otherwise the line is
sent to the peer.  The returned list is the sequence of sent payloads. -/
def relayLoop : List String → List String
  | [] => []
  | msg :: rest => if pyLower msg = "quit" then [] else msg :: relayLoop rest

/-- Embedding of the inner message loop of `tcp_punch` (src/test.py lines
186-191): same check against `"quit"`, which additionally sets the stop
event before breaking.  Returns the sent payloads and the final state of
the stop flag as set by the loop itself. -/
def tcpRelay : List String → List String × Bool
  | [] => ([], false)
  | msg :: rest =>
    if pyLower msg = "quit" then ([], true)
    else (msg :: (tcpRelay rest).1, (tcpRelay rest).2)

/-- C6 counterexample: typing "exit" does NOT end either relay loop and
the literal "exit" IS forwarded to the peer as an application message —
both loops compare only against `"quit"` (src/hole_punch.py line 57,
src/test.py line 188). -/
theorem relay_exit_forwarded :
    relayLoop ["exit"] = ["exit"] ∧ tcpRelay ["exit"] = (["exit"], false) := by
  refine ⟨?_, ?_⟩ <;> decide

/-- C6 amended: only the literal input "quit" (case-insensitively) ends
the relay loops — the UDP loop then falls through to `sock.close()`, the
TCP loop sets the cancellation flag then closes its socket — while every
other line, "exit" included, is forwarded to the peer and the loop
continues. -/
theorem relay_quit_only (msg : String) (rest : List String) :
    (pyLower msg = "quit" →
        relayLoop (msg :: rest) = [] ∧ tcpRelay (msg :: rest) = ([], true)) ∧
      (pyLower msg ≠ "quit" →
        relayLoop (msg :: rest) = msg :: relayLoop rest ∧
          tcpRelay (msg :: rest) = (msg :: (tcpRelay rest).1, (tcpRelay rest).2)) := by
  constructor
  · intro h
    constructor <;> simp [relayLoop, tcpRelay, h]
  · intro h
    constructor <;> simp [relayLoop, tcpRelay, h]

theorem relay_quit_only_witness :
    (relayLoop ["QUIT", "hi"] = [] ∧ tcpRelay ["QUIT", "hi"] = ([], true)) ∧
      (relayLoop ["exit"] = "exit" :: relayLoop [] ∧
        tcpRelay ["exit"] = ("exit" :: (tcpRelay []).1, (tcpRelay []).2)) :=
  ⟨(relay_quit_only "QUIT" ["hi"]).1 (by decide),
    (relay_quit_only "exit" []).2 (by decide)⟩

/-- Embedding of `handle_tcp_connection` (src/test.py lines 149-163) over
the list of received chunks (decoded): the loop stops at the first empty
chunk (`if not data: break`); every other chunk is stripped and displayed
when the stripped text is non-empty and differs from the literal
"TCP_PUNCH".  Returns the list of displayed messages. -/
def handle_tcp_connection : List String → List String
  | [] => []
  | d :: rest =>
    if d = "" then []
    else if pyStrip d ≠ "" ∧ pyStrip d ≠ "TCP_PUNCH" then
      pyStrip d :: handle_tcp_connection rest
    else handle_tcp_connection rest

/-- C10: the per-connection reader displays a chunk exactly when its
stripped text is non-empty and differs from "TCP_PUNCH": the displayed
messages are the stripped versions of the chunks before the first empty
chunk, filtered by that condition.  In particular the control marker
followed by a newline, and whitespace-only chunks, are suppressed. -/
theorem handle_tcp_connection_display :
    (∀ chunks, handle_tcp_connection chunks =
        ((chunks.takeWhile (fun d => d != "")).map pyStrip).filter
          (fun m => m != "" && m != "TCP_PUNCH")) ∧
      handle_tcp_connection ["TCP_PUNCH\n", "hello\n"] = ["hello"] ∧
      handle_tcp_connection [" \t "] = [] := by
  refine ⟨?_, by decide, by decide⟩
  intro chunks
  induction chunks with
  | nil => rfl
  | cons d rest ih =>
    by_cases hd : d = ""
    · subst hd
      simp [handle_tcp_connection]
    · by_cases hm : pyStrip d = ""
      · simp [handle_tcp_connection, hd, hm, ih]
      · by_cases hp : pyStrip d = "TCP_PUNCH"
        · simp [handle_tcp_connection, hd, hm, hp, ih]
        · simp [handle_tcp_connection, hd, hm, hp, ih]

end Plink
